import Mathlib

/-
Shallow embedding of detection/models/backbones/resnet.py.

The file models three aspects of the source:
  * the shape semantics of the Keras layers the module composes
    (Conv2D, MaxPooling2D with SAME or VALID padding, BatchNormalization),
  * a value-level semantics of the forward passes, parametric in the tensor
    type and in the concrete layer functions, which captures exactly how
    _Bottleneck.__call__ and ResNet50.__call__ compose their sub-layers,
  * the threading of the running statistics (moving mean and variance) of
    every BatchNormalization layer, with the update happening exactly when
    a layer is invoked in training mode.
-/

/-- Ceiling division on naturals: the least m with a <= m * b, for b > 0. -/
def cdiv (a b : Nat) : Nat := (a + b - 1) / b

/-- Output spatial dimension of a TensorFlow Conv2D or MaxPooling2D layer with
SAME padding: the input size divided by the stride, rounded up. -/
def convSameDim (stride size : Nat) : Nat := (size + stride - 1) / stride

/-- Output spatial dimension of a TensorFlow Conv2D layer with VALID padding
(the Conv2D default): (size - kernel) / stride + 1, for size >= kernel. -/
def convValidDim (kernel stride size : Nat) : Nat := (size - kernel) / stride + 1

/-- Shape of a rank-4 tensor in the channel-last layout (batch, height,
width, channels) used throughout resnet.py. -/
structure Shape where
  n : Nat
  h : Nat
  w : Nat
  c : Nat
  deriving DecidableEq

/-- Configuration of a _Bottleneck unit as taken by _Bottleneck.__init__
(resnet.py lines 12-43): the three filter counts of the unpacked filters
list, the block identifier string, the downsampling flag and the stride.
The keyword defaults downsampling=False and stride=1 of the source are the
field defaults here. -/
structure BottleneckCfg where
  f1 : Nat
  f2 : Nat
  f3 : Nat
  block : String
  downsampling : Bool := false
  stride : Nat := 1
  deriving DecidableEq

/-- Shape of the main path of _Bottleneck.__call__ (lines 46-56): conv2a is
a 1 by 1 convolution with strides=(stride, stride) and the default VALID
padding, conv2b a 3 by 3 convolution with stride 1 and SAME padding, conv2c
a 1 by 1 convolution with stride 1 and VALID padding; the batch
normalizations and the relu activations preserve shapes. -/
def _Bottleneck.mainPathShape (cfg : BottleneckCfg) (s : Shape) : Shape :=
  let s1 : Shape :=
    ⟨s.n, convValidDim 1 cfg.stride s.h, convValidDim 1 cfg.stride s.w, cfg.f1⟩
  let s2 : Shape := ⟨s1.n, convSameDim 1 s1.h, convSameDim 1 s1.w, cfg.f2⟩
  ⟨s2.n, convValidDim 1 1 s2.h, convValidDim 1 1 s2.w, cfg.f3⟩

/-- Shape of the shortcut path of _Bottleneck.__call__ (lines 58-62): a
1 by 1 projection convolution with strides=(stride, stride) and VALID
padding followed by a batch normalization when downsampling, else the input
unchanged. -/
def _Bottleneck.shortcutShape (cfg : BottleneckCfg) (s : Shape) : Shape :=
  if cfg.downsampling then
    ⟨s.n, convValidDim 1 cfg.stride s.h, convValidDim 1 cfg.stride s.w, cfg.f3⟩
  else s

/-- Shape returned by _Bottleneck.__call__: the addition x += shortcut and
the final relu keep the main-path shape. The training flag does not affect
shapes; it is kept so that statements can quantify over the mode. -/
def _Bottleneck.callShape (cfg : BottleneckCfg) (s : Shape) (training : Bool) : Shape :=
  _Bottleneck.mainPathShape cfg s

/-- The addition x += shortcut in _Bottleneck.__call__ (line 64) is
well-formed exactly when the two operand shapes coincide (the model does not
use broadcasting; none of the configurations of this module rely on it). -/
def _Bottleneck.callOk (cfg : BottleneckCfg) (s : Shape) : Prop :=
  _Bottleneck.mainPathShape cfg s = _Bottleneck.shortcutShape cfg s

instance (cfg : BottleneckCfg) (s : Shape) : Decidable (_Bottleneck.callOk cfg s) :=
  inferInstanceAs (Decidable (_Bottleneck.mainPathShape cfg s = _Bottleneck.shortcutShape cfg s))

/-- Transcription of _Bottleneck.compute_output_shape (lines 68-74): both
spatial dimensions are floor-divided by the stride and the channel count is
set to out_channel = filters3, independently of the downsampling flag. -/
def _Bottleneck.compute_output_shape (cfg : BottleneckCfg) (s : Shape) : Shape :=
  ⟨s.n, s.h / cfg.stride, s.w / cfg.stride, cfg.f3⟩

/-- First unit of stage 2 of ResNet50.__init__ (lines 88-89). -/
def ResNet50.res2a : BottleneckCfg :=
  { f1 := 64, f2 := 64, f3 := 256, block := "2a", downsampling := true, stride := 1 }

/-- Second unit of stage 2 (line 90). -/
def ResNet50.res2b : BottleneckCfg := { f1 := 64, f2 := 64, f3 := 256, block := "2b" }

/-- Third unit of stage 2 (line 91). -/
def ResNet50.res2c : BottleneckCfg := { f1 := 64, f2 := 64, f3 := 256, block := "2c" }

/-- First unit of stage 3 (lines 93-94). -/
def ResNet50.res3a : BottleneckCfg :=
  { f1 := 128, f2 := 128, f3 := 512, block := "3a", downsampling := true, stride := 2 }

/-- Second unit of stage 3 (line 95). -/
def ResNet50.res3b : BottleneckCfg := { f1 := 128, f2 := 128, f3 := 512, block := "3b" }

/-- Third unit of stage 3 (line 96). -/
def ResNet50.res3c : BottleneckCfg := { f1 := 128, f2 := 128, f3 := 512, block := "3c" }

/-- Fourth unit of stage 3 (line 97). -/
def ResNet50.res3d : BottleneckCfg := { f1 := 128, f2 := 128, f3 := 512, block := "3d" }

/-- First unit of stage 4 (lines 99-100). -/
def ResNet50.res4a : BottleneckCfg :=
  { f1 := 256, f2 := 256, f3 := 1024, block := "4a", downsampling := true, stride := 2 }

/-- Second unit of stage 4 (line 101). -/
def ResNet50.res4b : BottleneckCfg := { f1 := 256, f2 := 256, f3 := 1024, block := "4b" }

/-- Third unit of stage 4 (line 102). -/
def ResNet50.res4c : BottleneckCfg := { f1 := 256, f2 := 256, f3 := 1024, block := "4c" }

/-- Fourth unit of stage 4 (line 103). -/
def ResNet50.res4d : BottleneckCfg := { f1 := 256, f2 := 256, f3 := 1024, block := "4d" }

/-- Fifth unit of stage 4 (line 104). -/
def ResNet50.res4e : BottleneckCfg := { f1 := 256, f2 := 256, f3 := 1024, block := "4e" }

/-- Sixth unit of stage 4 (line 105). -/
def ResNet50.res4f : BottleneckCfg := { f1 := 256, f2 := 256, f3 := 1024, block := "4f" }

/-- First unit of stage 5 (lines 107-108). -/
def ResNet50.res5a : BottleneckCfg :=
  { f1 := 512, f2 := 512, f3 := 2048, block := "5a", downsampling := true, stride := 2 }

/-- Second unit of stage 5 (line 109). -/
def ResNet50.res5b : BottleneckCfg := { f1 := 512, f2 := 512, f3 := 2048, block := "5b" }

/-- Third unit of stage 5 (line 110). -/
def ResNet50.res5c : BottleneckCfg := { f1 := 512, f2 := 512, f3 := 2048, block := "5c" }

/-- Shape of the ResNet50 stem (layers built on lines 81-86, applied on
lines 117-120): conv1 is a 7 by 7, 64-channel convolution with stride 2 and
SAME padding, and max_pool a 3 by 3 pooling with stride 2 and SAME padding;
bn_conv1 and the relu preserve shapes. The stem accepts any input channel
count, since the convolution weights are built from the first input seen. -/
def ResNet50.stemShape (s : Shape) : Shape :=
  ⟨s.n, convSameDim 2 (convSameDim 2 s.h), convSameDim 2 (convSameDim 2 s.w), 64⟩

/-- Shapes of the four tensors (C2, C3, C4, C5) returned by
ResNet50.__call__ (lines 116-142): the stem followed by the sixteen
bottleneck units in order, capturing the output of the last unit of each
stage. -/
def ResNet50.callShape (s : Shape) (training : Bool) :
    Shape × Shape × Shape × Shape :=
  let x0 := ResNet50.stemShape s
  let x1 := _Bottleneck.callShape ResNet50.res2a x0 training
  let x2 := _Bottleneck.callShape ResNet50.res2b x1 training
  let c2 := _Bottleneck.callShape ResNet50.res2c x2 training
  let x3 := _Bottleneck.callShape ResNet50.res3a c2 training
  let x4 := _Bottleneck.callShape ResNet50.res3b x3 training
  let x5 := _Bottleneck.callShape ResNet50.res3c x4 training
  let c3 := _Bottleneck.callShape ResNet50.res3d x5 training
  let x6 := _Bottleneck.callShape ResNet50.res4a c3 training
  let x7 := _Bottleneck.callShape ResNet50.res4b x6 training
  let x8 := _Bottleneck.callShape ResNet50.res4c x7 training
  let x9 := _Bottleneck.callShape ResNet50.res4d x8 training
  let x10 := _Bottleneck.callShape ResNet50.res4e x9 training
  let c4 := _Bottleneck.callShape ResNet50.res4f x10 training
  let x11 := _Bottleneck.callShape ResNet50.res5a c4 training
  let x12 := _Bottleneck.callShape ResNet50.res5b x11 training
  let c5 := _Bottleneck.callShape ResNet50.res5c x12 training
  (c2, c3, c4, c5)

/-- All sixteen residual additions inside ResNet50.__call__ are well-formed
at the shapes that actually reach them. -/
def ResNet50.callOk (s : Shape) (training : Bool) : Prop :=
  let x0 := ResNet50.stemShape s
  let x1 := _Bottleneck.callShape ResNet50.res2a x0 training
  let x2 := _Bottleneck.callShape ResNet50.res2b x1 training
  let c2 := _Bottleneck.callShape ResNet50.res2c x2 training
  let x3 := _Bottleneck.callShape ResNet50.res3a c2 training
  let x4 := _Bottleneck.callShape ResNet50.res3b x3 training
  let x5 := _Bottleneck.callShape ResNet50.res3c x4 training
  let c3 := _Bottleneck.callShape ResNet50.res3d x5 training
  let x6 := _Bottleneck.callShape ResNet50.res4a c3 training
  let x7 := _Bottleneck.callShape ResNet50.res4b x6 training
  let x8 := _Bottleneck.callShape ResNet50.res4c x7 training
  let x9 := _Bottleneck.callShape ResNet50.res4d x8 training
  let x10 := _Bottleneck.callShape ResNet50.res4e x9 training
  let c4 := _Bottleneck.callShape ResNet50.res4f x10 training
  let x11 := _Bottleneck.callShape ResNet50.res5a c4 training
  let x12 := _Bottleneck.callShape ResNet50.res5b x11 training
  _Bottleneck.callOk ResNet50.res2a x0 ∧ _Bottleneck.callOk ResNet50.res2b x1 ∧
  _Bottleneck.callOk ResNet50.res2c x2 ∧ _Bottleneck.callOk ResNet50.res3a c2 ∧
  _Bottleneck.callOk ResNet50.res3b x3 ∧ _Bottleneck.callOk ResNet50.res3c x4 ∧
  _Bottleneck.callOk ResNet50.res3d x5 ∧ _Bottleneck.callOk ResNet50.res4a c3 ∧
  _Bottleneck.callOk ResNet50.res4b x6 ∧ _Bottleneck.callOk ResNet50.res4c x7 ∧
  _Bottleneck.callOk ResNet50.res4d x8 ∧ _Bottleneck.callOk ResNet50.res4e x9 ∧
  _Bottleneck.callOk ResNet50.res4f x10 ∧ _Bottleneck.callOk ResNet50.res5a c4 ∧
  _Bottleneck.callOk ResNet50.res5b x11 ∧ _Bottleneck.callOk ResNet50.res5c x12

/-- Transcription of the out_channel tuple set in ResNet50.__init__
(line 113). -/
def ResNet50.out_channel : Nat × Nat × Nat × Nat := (256, 512, 1024, 2048)

/-- Transcription of ResNet50.compute_output_shape (lines 144-153): the
spatial dimensions are floor-divided (Python //) by the fixed stride factors
4, 8, 16 and 32, with the fixed out_channel channel counts; the input
channel count is read but never used. -/
def ResNet50.compute_output_shape (s : Shape) : Shape × Shape × Shape × Shape :=
  (⟨s.n, s.h / 4, s.w / 4, ResNet50.out_channel.1⟩,
   ⟨s.n, s.h / 8, s.w / 8, ResNet50.out_channel.2.1⟩,
   ⟨s.n, s.h / 16, s.w / 16, ResNet50.out_channel.2.2.1⟩,
   ⟨s.n, s.h / 32, s.w / 32, ResNet50.out_channel.2.2.2⟩)

/-- Behaviour of one Keras BatchNormalization layer on its running
statistics (an abstract type S holding the moving mean and variance) and on
its output value: per the layer contract, the statistics are replaced by an
updated value computed from the batch exactly when the layer is invoked in
training mode, and are read but left unchanged in inference mode; the
produced tensor may depend on the mode, the statistics and the input. -/
structure BNLayer (T S : Type) where
  upd : S → T → S
  out : Bool → S → T → T

/-- Invocation of a BatchNormalization layer with an explicit training flag. -/
def bnApply {T S : Type} (bn : BNLayer T S) (st : S) (x : T) (training : Bool) : S × T :=
  (if training then bn.upd st x else st, bn.out training st x)

/-- Keras layers invoked with no explicit training argument resolve the flag
to the ambient learning phase, which is inference (False) outside of a fit
loop. ResNet50.__call__ invokes bn_conv1 with no training argument
(line 119), so that layer always runs with this flag. -/
def kerasDefaultTraining : Bool := false

/-- Layers owned by a _Bottleneck unit (lines 24-43): three convolution and
batch-normalization pairs on the main path, and one pair for the projection
shortcut which the source creates only when downsampling (the forward pass
reads the shortcut pair only in that case). Convolutions are abstract
functions on tensor values here; their shape behaviour is modelled
separately above. -/
structure BottleneckLayers (T S : Type) where
  conv2a : T → T
  bn2a : BNLayer T S
  conv2b : T → T
  bn2b : BNLayer T S
  conv2c : T → T
  bn2c : BNLayer T S
  conv_shortcut : T → T
  bn_shortcut : BNLayer T S
  downsampling : Bool

/-- Running statistics of the normalization layers of one bottleneck unit. -/
structure BottleneckStats (S : Type) where
  bn2a : S
  bn2b : S
  bn2c : S
  bn_shortcut : S

/-- Value and statistics semantics of _Bottleneck.__call__ (lines 45-66),
parametric in the tensor type, the statistics type, the relu function and
the addition: conv2a, bn2a, relu, conv2b, bn2b, relu, conv2c, bn2c on the
main path; the projection pair or the identity on the shortcut; then the
addition and the final relu. Every batch normalization receives the caller's
training flag. -/
def _Bottleneck.callS {T S : Type} (relu : T → T) (add : T → T → T)
    (p : BottleneckLayers T S) (st : BottleneckStats S) (inputs : T)
    (training : Bool) : BottleneckStats S × T :=
  let ra := bnApply p.bn2a st.bn2a (p.conv2a inputs) training
  let rb := bnApply p.bn2b st.bn2b (p.conv2b (relu ra.2)) training
  let rc := bnApply p.bn2c st.bn2c (p.conv2c (relu rb.2)) training
  let rs :=
    if p.downsampling then
      bnApply p.bn_shortcut st.bn_shortcut (p.conv_shortcut inputs) training
    else (st.bn_shortcut, inputs)
  (⟨ra.1, rb.1, rc.1, rs.1⟩, relu (add rc.2 rs.2))

/-- Main path as the specification words it: 1 by 1 convolution,
normalization, rectified-linear activation, 3 by 3 convolution,
normalization, activation, 1 by 1 convolution, normalization with no
activation. Written from the specification for comparison with
_Bottleneck.callS. -/
def _Bottleneck.mainPathSpec {T S : Type} (relu : T → T)
    (p : BottleneckLayers T S) (st : BottleneckStats S) (x : T)
    (training : Bool) : T :=
  p.bn2c.out training st.bn2c (p.conv2c (relu (p.bn2b.out training st.bn2b
    (p.conv2b (relu (p.bn2a.out training st.bn2a (p.conv2a x)))))))

/-- Shortcut path as the specification words it: projection convolution then
normalization when a projection is configured, else the input unchanged.
Written from the specification for comparison with _Bottleneck.callS. -/
def _Bottleneck.shortcutPathSpec {T S : Type} (p : BottleneckLayers T S)
    (st : BottleneckStats S) (x : T) (training : Bool) : T :=
  if p.downsampling then
    p.bn_shortcut.out training st.bn_shortcut (p.conv_shortcut x)
  else x

/-- Layers owned by ResNet50 (lines 78-113): the stem and the sixteen
bottleneck units. -/
structure ResNetLayers (T S : Type) where
  conv1 : T → T
  bn_conv1 : BNLayer T S
  max_pool : T → T
  res2a : BottleneckLayers T S
  res2b : BottleneckLayers T S
  res2c : BottleneckLayers T S
  res3a : BottleneckLayers T S
  res3b : BottleneckLayers T S
  res3c : BottleneckLayers T S
  res3d : BottleneckLayers T S
  res4a : BottleneckLayers T S
  res4b : BottleneckLayers T S
  res4c : BottleneckLayers T S
  res4d : BottleneckLayers T S
  res4e : BottleneckLayers T S
  res4f : BottleneckLayers T S
  res5a : BottleneckLayers T S
  res5b : BottleneckLayers T S
  res5c : BottleneckLayers T S

/-- Running statistics of every normalization layer of the backbone: the
stem's bn_conv1 and the statistics of the sixteen units. -/
structure ResNetStats (S : Type) where
  bn_conv1 : S
  res2a : BottleneckStats S
  res2b : BottleneckStats S
  res2c : BottleneckStats S
  res3a : BottleneckStats S
  res3b : BottleneckStats S
  res3c : BottleneckStats S
  res3d : BottleneckStats S
  res4a : BottleneckStats S
  res4b : BottleneckStats S
  res4c : BottleneckStats S
  res4d : BottleneckStats S
  res4e : BottleneckStats S
  res4f : BottleneckStats S
  res5a : BottleneckStats S
  res5b : BottleneckStats S
  res5c : BottleneckStats S

/-- Value and statistics semantics of ResNet50.__call__ (lines 116-142):
conv1, bn_conv1 (invoked with NO training argument, hence with
kerasDefaultTraining), relu, max_pool, then the sixteen bottleneck units in
order, each receiving the caller's training flag; the outputs of res2c,
res3d, res4f and res5c are returned as (C2, C3, C4, C5). -/
def ResNet50.callS {T S : Type} (relu : T → T) (add : T → T → T)
    (P : ResNetLayers T S) (st : ResNetStats S) (inputs : T)
    (training : Bool) : ResNetStats S × (T × T × T × T) :=
  let r1 := bnApply P.bn_conv1 st.bn_conv1 (P.conv1 inputs) kerasDefaultTraining
  let x0 := P.max_pool (relu r1.2)
  let r2a := _Bottleneck.callS relu add P.res2a st.res2a x0 training
  let r2b := _Bottleneck.callS relu add P.res2b st.res2b r2a.2 training
  let r2c := _Bottleneck.callS relu add P.res2c st.res2c r2b.2 training
  let r3a := _Bottleneck.callS relu add P.res3a st.res3a r2c.2 training
  let r3b := _Bottleneck.callS relu add P.res3b st.res3b r3a.2 training
  let r3c := _Bottleneck.callS relu add P.res3c st.res3c r3b.2 training
  let r3d := _Bottleneck.callS relu add P.res3d st.res3d r3c.2 training
  let r4a := _Bottleneck.callS relu add P.res4a st.res4a r3d.2 training
  let r4b := _Bottleneck.callS relu add P.res4b st.res4b r4a.2 training
  let r4c := _Bottleneck.callS relu add P.res4c st.res4c r4b.2 training
  let r4d := _Bottleneck.callS relu add P.res4d st.res4d r4c.2 training
  let r4e := _Bottleneck.callS relu add P.res4e st.res4e r4d.2 training
  let r4f := _Bottleneck.callS relu add P.res4f st.res4f r4e.2 training
  let r5a := _Bottleneck.callS relu add P.res5a st.res5a r4f.2 training
  let r5b := _Bottleneck.callS relu add P.res5b st.res5b r5a.2 training
  let r5c := _Bottleneck.callS relu add P.res5c st.res5c r5b.2 training
  (⟨r1.1, r2a.1, r2b.1, r2c.1, r3a.1, r3b.1, r3c.1, r3d.1, r4a.1, r4b.1,
    r4c.1, r4d.1, r4e.1, r4f.1, r5a.1, r5b.1, r5c.1⟩,
   (r2c.2, r3d.2, r4f.2, r5c.2))

/-- Default of the training parameter in the signature of ResNet50.__call__
(line 116: training=True). -/
def ResNet50.trainingDefault : Bool := true

/-- Default of the training parameter in the signature of
_Bottleneck.__call__ (line 45: training=False). -/
def _Bottleneck.trainingDefault : Bool := false

/-- ResNet50.__call__ with the training argument omitted by the caller. -/
def ResNet50.callSDefault {T S : Type} (relu : T → T) (add : T → T → T)
    (P : ResNetLayers T S) (st : ResNetStats S) (inputs : T) :
    ResNetStats S × (T × T × T × T) :=
  ResNet50.callS relu add P st inputs ResNet50.trainingDefault

/-- _Bottleneck.__call__ with the training argument omitted by the caller. -/
def _Bottleneck.callSDefault {T S : Type} (relu : T → T) (add : T → T → T)
    (p : BottleneckLayers T S) (st : BottleneckStats S) (inputs : T) :
    BottleneckStats S × T :=
  _Bottleneck.callS relu add p st inputs _Bottleneck.trainingDefault

/-- Sub-layer names created by _Bottleneck.__init__ (lines 16-43), in
construction order: conv_name_base = res + block + _branch and
bn_name_base = bn + block + _branch, with suffixes 2a, 2b, 2c for the main
path and suffix 1 for the projection pair, created only when downsampling. -/
def _Bottleneck.layerNames (cfg : BottleneckCfg) : List String :=
  let conv_name_base := "res" ++ cfg.block ++ "_branch"
  let bn_name_base := "bn" ++ cfg.block ++ "_branch"
  [conv_name_base ++ "2a", bn_name_base ++ "2a",
   conv_name_base ++ "2b", bn_name_base ++ "2b",
   conv_name_base ++ "2c", bn_name_base ++ "2c"] ++
  (if cfg.downsampling then [conv_name_base ++ "1", bn_name_base ++ "1"] else [])

/-- The sixteen bottleneck units of ResNet50.__init__ in construction
order. -/
def ResNet50.units : List BottleneckCfg :=
  [ResNet50.res2a, ResNet50.res2b, ResNet50.res2c,
   ResNet50.res3a, ResNet50.res3b, ResNet50.res3c, ResNet50.res3d,
   ResNet50.res4a, ResNet50.res4b, ResNet50.res4c, ResNet50.res4d,
   ResNet50.res4e, ResNet50.res4f,
   ResNet50.res5a, ResNet50.res5b, ResNet50.res5c]

/-- All named sub-modules of ResNet50 in construction order: the stem pair
conv1 and bn_conv1 (lines 81-87; max_pool carries no name), then the layer
names of the sixteen units. -/
def ResNet50.layerNames : List String :=
  "conv1" :: "bn_conv1" :: (ResNet50.units.map _Bottleneck.layerNames).flatten

/-- Statistics outcome the specification asserts for one unit under a
training-mode invocation: every normalization layer the unit invokes has its
statistics replaced by its update function applied to some batch input, and
a projection-pair slot of a unit without a projection is untouched. -/
def trainUpdated {T S : Type} (p : BottleneckLayers T S)
    (old new : BottleneckStats S) : Prop :=
  (∃ v : T, new.bn2a = p.bn2a.upd old.bn2a v) ∧
  (∃ v : T, new.bn2b = p.bn2b.upd old.bn2b v) ∧
  (∃ v : T, new.bn2c = p.bn2c.upd old.bn2c v) ∧
  (if p.downsampling then ∃ v : T, new.bn_shortcut = p.bn_shortcut.upd old.bn_shortcut v
   else new.bn_shortcut = old.bn_shortcut)

/-- Batch-normalization layer over trivial tensors whose statistics count
how many times the layer was updated. -/
def countingBN : BNLayer Unit Nat := ⟨fun n _ => n + 1, fun _ _ _ => ()⟩

/-- Bottleneck unit built from counting normalization layers. -/
def countingUnit (downsampling : Bool) : BottleneckLayers Unit Nat :=
  ⟨id, countingBN, id, countingBN, id, countingBN, id, countingBN, downsampling⟩

/-- Backbone built from counting normalization layers, with the downsampling
flags of the real configuration. -/
def countingNet : ResNetLayers Unit Nat :=
  ⟨id, countingBN, id,
   countingUnit true, countingUnit false, countingUnit false,
   countingUnit true, countingUnit false, countingUnit false, countingUnit false,
   countingUnit true, countingUnit false, countingUnit false, countingUnit false,
   countingUnit false, countingUnit false,
   countingUnit true, countingUnit false, countingUnit false⟩

/-- All-zero statistics for one counting unit. -/
def countingUnitStats : BottleneckStats Nat := ⟨0, 0, 0, 0⟩

/-- All-zero statistics for the counting backbone. -/
def countingStats : ResNetStats Nat :=
  ⟨0, countingUnitStats, countingUnitStats, countingUnitStats,
   countingUnitStats, countingUnitStats, countingUnitStats, countingUnitStats,
   countingUnitStats, countingUnitStats, countingUnitStats, countingUnitStats,
   countingUnitStats, countingUnitStats, countingUnitStats, countingUnitStats,
   countingUnitStats⟩

/-- Concrete unit over natural-number tensors used to instantiate the
identity-shortcut theorem. -/
def natUnit : BottleneckLayers Nat Nat :=
  ⟨fun v => v + 1, ⟨fun s _ => s, fun _ _ v => v * 2⟩,
   fun v => v + 2, ⟨fun s _ => s, fun _ _ v => v * 3⟩,
   fun v => v + 3, ⟨fun s _ => s, fun _ _ v => v * 5⟩,
   fun v => v + 4, ⟨fun s _ => s, fun _ _ v => v * 7⟩, false⟩

theorem convValidDim_one_one (x : Nat) (hx : 0 < x) : convValidDim 1 1 x = x := by
  unfold convValidDim; omega

theorem convValidDim_eq_cdiv (x st : Nat) (hx : 0 < x) (hst : 0 < st) :
    convValidDim 1 st x = cdiv x st := by
  unfold convValidDim cdiv
  rw [show x + st - 1 = x - 1 + st by omega, Nat.add_div_right _ hst]

theorem _Bottleneck.mainPathShape_eq (cfg : BottleneckCfg) (s : Shape) :
    _Bottleneck.mainPathShape cfg s =
      ⟨s.n, convValidDim 1 cfg.stride s.h, convValidDim 1 cfg.stride s.w, cfg.f3⟩ := by
  simp [_Bottleneck.mainPathShape, convSameDim, convValidDim]

theorem resnet_callShape_closed (n h w c : Nat) (tr : Bool) (hh : 0 < h) (hw : 0 < w) :
    ResNet50.callOk ⟨n, h, w, c⟩ tr ∧
    ResNet50.callShape ⟨n, h, w, c⟩ tr =
      (⟨n, cdiv h 4, cdiv w 4, 256⟩, ⟨n, cdiv h 8, cdiv w 8, 512⟩,
       ⟨n, cdiv h 16, cdiv w 16, 1024⟩, ⟨n, cdiv h 32, cdiv w 32, 2048⟩) := by
  constructor
  · simp [ResNet50.callOk, ResNet50.stemShape, _Bottleneck.callOk,
      _Bottleneck.callShape, _Bottleneck.mainPathShape, _Bottleneck.shortcutShape,
      ResNet50.res2a, ResNet50.res2b, ResNet50.res2c, ResNet50.res3a,
      ResNet50.res3b, ResNet50.res3c, ResNet50.res3d, ResNet50.res4a,
      ResNet50.res4b, ResNet50.res4c, ResNet50.res4d, ResNet50.res4e,
      ResNet50.res4f, ResNet50.res5a, ResNet50.res5b, ResNet50.res5c,
      convSameDim, convValidDim, Shape.mk.injEq]
  · simp [ResNet50.callShape, ResNet50.stemShape,
      _Bottleneck.callShape, _Bottleneck.mainPathShape,
      ResNet50.res2a, ResNet50.res2b, ResNet50.res2c, ResNet50.res3a,
      ResNet50.res3b, ResNet50.res3c, ResNet50.res3d, ResNet50.res4a,
      ResNet50.res4b, ResNet50.res4c, ResNet50.res4d, ResNet50.res4e,
      ResNet50.res4f, ResNet50.res5a, ResNet50.res5b, ResNet50.res5c,
      convSameDim, convValidDim, cdiv, Shape.mk.injEq, Prod.mk.injEq]
    omega

/-- C1: for every input tensor of shape (N,H,W,3) with H and W positive
multiples of 32, the backbone forward pass is well-formed in either mode and
returns exactly four tensors of shapes (N,H/4,W/4,256), (N,H/8,W/8,512),
(N,H/16,W/16,1024) and (N,H/32,W/32,2048). -/
theorem resnet_output_shapes_div32 (n h w : Nat) (tr : Bool)
    (hh : 0 < h) (hw : 0 < w) (h32 : 32 ∣ h) (w32 : 32 ∣ w) :
    ResNet50.callOk ⟨n, h, w, 3⟩ tr ∧
    ResNet50.callShape ⟨n, h, w, 3⟩ tr =
      (⟨n, h / 4, w / 4, 256⟩, ⟨n, h / 8, w / 8, 512⟩,
       ⟨n, h / 16, w / 16, 1024⟩, ⟨n, h / 32, w / 32, 2048⟩) := by
  obtain ⟨hOk, hEq⟩ := resnet_callShape_closed n h w 3 tr hh hw
  refine ⟨hOk, ?_⟩
  rw [hEq]
  have e1 : cdiv h 4 = h / 4 := by unfold cdiv; omega
  have e2 : cdiv h 8 = h / 8 := by unfold cdiv; omega
  have e3 : cdiv h 16 = h / 16 := by unfold cdiv; omega
  have e4 : cdiv h 32 = h / 32 := by unfold cdiv; omega
  have f1 : cdiv w 4 = w / 4 := by unfold cdiv; omega
  have f2 : cdiv w 8 = w / 8 := by unfold cdiv; omega
  have f3 : cdiv w 16 = w / 16 := by unfold cdiv; omega
  have f4 : cdiv w 32 = w / 32 := by unfold cdiv; omega
  rw [e1, e2, e3, e4, f1, f2, f3, f4]

/-- C1 witness: the demonstration input (2,1024,1024,3) yields the shapes
(2,256,256,256), (2,128,128,512), (2,64,64,1024), (2,32,32,2048). -/
theorem resnet_output_shapes_div32_witness :
    ResNet50.callOk ⟨2, 1024, 1024, 3⟩ true ∧
    ResNet50.callShape ⟨2, 1024, 1024, 3⟩ true =
      (⟨2, 256, 256, 256⟩, ⟨2, 128, 128, 512⟩,
       ⟨2, 64, 64, 1024⟩, ⟨2, 32, 32, 2048⟩) := by
  have hthm := resnet_output_shapes_div32 2 1024 1024 true
    (by omega) (by omega) (by omega) (by omega)
  exact ⟨hthm.1, by rw [hthm.2]⟩

/-- C3 counterexample: the forward computation accepts the input shape
(1,33,32,3), and there the shapes it produces (ceiling divisions) differ
from the analytic shape inference (floor divisions). -/
theorem resnet_shape_inference_mismatch :
    ResNet50.callOk ⟨1, 33, 32, 3⟩ false ∧
    ResNet50.callShape ⟨1, 33, 32, 3⟩ false =
      (⟨1, 9, 8, 256⟩, ⟨1, 5, 4, 512⟩, ⟨1, 3, 2, 1024⟩, ⟨1, 2, 1, 2048⟩) ∧
    ResNet50.compute_output_shape ⟨1, 33, 32, 3⟩ =
      (⟨1, 8, 8, 256⟩, ⟨1, 4, 4, 512⟩, ⟨1, 2, 2, 1024⟩, ⟨1, 1, 1, 2048⟩) ∧
    ResNet50.callShape ⟨1, 33, 32, 3⟩ false ≠
      ResNet50.compute_output_shape ⟨1, 33, 32, 3⟩ := by
  refine ⟨?_, by decide, by decide, by decide⟩
  exact (resnet_callShape_closed 1 33 32 3 false (by omega) (by omega)).1

/-- C3 amended: for input shapes whose spatial dimensions are positive
multiples of 32, the analytic shape inference returns exactly the four
shapes the forward computation produces (in either mode and for any channel
count); for other accepted inputs the two differ, as the counterexample
shows. -/
theorem resnet_shape_inference_agrees_div32 (n h w c : Nat) (tr : Bool)
    (hh : 0 < h) (hw : 0 < w) (h32 : 32 ∣ h) (w32 : 32 ∣ w) :
    ResNet50.callOk ⟨n, h, w, c⟩ tr ∧
    ResNet50.callShape ⟨n, h, w, c⟩ tr =
      ResNet50.compute_output_shape ⟨n, h, w, c⟩ := by
  obtain ⟨hOk, hEq⟩ := resnet_callShape_closed n h w c tr hh hw
  refine ⟨hOk, ?_⟩
  have hc : ResNet50.compute_output_shape ⟨n, h, w, c⟩ =
      (⟨n, h / 4, w / 4, 256⟩, ⟨n, h / 8, w / 8, 512⟩,
       ⟨n, h / 16, w / 16, 1024⟩, ⟨n, h / 32, w / 32, 2048⟩) := rfl
  rw [hEq, hc]
  have e1 : cdiv h 4 = h / 4 := by unfold cdiv; omega
  have e2 : cdiv h 8 = h / 8 := by unfold cdiv; omega
  have e3 : cdiv h 16 = h / 16 := by unfold cdiv; omega
  have e4 : cdiv h 32 = h / 32 := by unfold cdiv; omega
  have f1 : cdiv w 4 = w / 4 := by unfold cdiv; omega
  have f2 : cdiv w 8 = w / 8 := by unfold cdiv; omega
  have f3 : cdiv w 16 = w / 16 := by unfold cdiv; omega
  have f4 : cdiv w 32 = w / 32 := by unfold cdiv; omega
  rw [e1, e2, e3, e4, f1, f2, f3, f4]

/-- C3 amended witness at the input (2,64,96,5). -/
theorem resnet_shape_inference_agrees_div32_witness :
    ResNet50.callOk ⟨2, 64, 96, 5⟩ false ∧
    ResNet50.callShape ⟨2, 64, 96, 5⟩ false =
      ResNet50.compute_output_shape ⟨2, 64, 96, 5⟩ :=
  resnet_shape_inference_agrees_div32 2 64 96 5 false
    (by omega) (by omega) (by omega) (by omega)

/-- C10: for every input shape (N,H,W,C), divisible by 32 or not and with
any channel count, the backbone's analytic shape inference floor-divides the
spatial dimensions by 4, 8, 16 and 32 and uses the fixed channel counts
256, 512, 1024 and 2048, and a bottleneck unit's analytic shape inference
floor-divides both spatial dimensions by its configured stride,
independently of its downsampling flag. -/
theorem compute_output_shape_floor (s : Shape) (cfg : BottleneckCfg) :
    ResNet50.compute_output_shape s =
      (⟨s.n, s.h / 4, s.w / 4, 256⟩, ⟨s.n, s.h / 8, s.w / 8, 512⟩,
       ⟨s.n, s.h / 16, s.w / 16, 1024⟩, ⟨s.n, s.h / 32, s.w / 32, 2048⟩) ∧
    _Bottleneck.compute_output_shape cfg s =
      ⟨s.n, s.h / cfg.stride, s.w / cfg.stride, cfg.f3⟩ ∧
    _Bottleneck.compute_output_shape { cfg with downsampling := true } s =
      _Bottleneck.compute_output_shape { cfg with downsampling := false } s :=
  ⟨rfl, rfl, rfl⟩

/-- C4: for every bottleneck unit and every input tensor accepted by its
residual addition, the output channel count is the third configured filter
count, and the output spatial dimensions are the ceiling divisions of the
input dimensions by the stride when the unit downsamples and are the input
dimensions otherwise. -/
theorem bottleneck_output_shape (cfg : BottleneckCfg) (s : Shape) (tr : Bool)
    (hst : 0 < cfg.stride) (hh : 0 < s.h) (hw : 0 < s.w)
    (hok : _Bottleneck.callOk cfg s) :
    (_Bottleneck.callShape cfg s tr).c = cfg.f3 ∧
    (_Bottleneck.callShape cfg s tr).h =
      (if cfg.downsampling then cdiv s.h cfg.stride else s.h) ∧
    (_Bottleneck.callShape cfg s tr).w =
      (if cfg.downsampling then cdiv s.w cfg.stride else s.w) := by
  have hm := _Bottleneck.mainPathShape_eq cfg s
  cases hd : cfg.downsampling with
  | false =>
    have hok2 : _Bottleneck.mainPathShape cfg s = s := by
      unfold _Bottleneck.callOk _Bottleneck.shortcutShape at hok
      rw [hd] at hok
      simpa using hok
    have hc : s.c = cfg.f3 := by
      have := congrArg Shape.c hok2
      rw [hm] at this
      exact this.symm
    unfold _Bottleneck.callShape
    rw [hok2]
    exact ⟨hc, by simp [hd], by simp [hd]⟩
  | true =>
    unfold _Bottleneck.callShape
    rw [hm]
    refine ⟨rfl, ?_, ?_⟩
    · simpa [hd] using convValidDim_eq_cdiv s.h cfg.stride hh hst
    · simpa [hd] using convValidDim_eq_cdiv s.w cfg.stride hw hst

/-- C4 witness at the unit res4b (no downsampling) and the input shape
(2,14,14,1024). -/
theorem bottleneck_output_shape_witness :
    0 < ResNet50.res4b.stride ∧ _Bottleneck.callOk ResNet50.res4b ⟨2, 14, 14, 1024⟩ ∧
    ((_Bottleneck.callShape ResNet50.res4b ⟨2, 14, 14, 1024⟩ false).c = ResNet50.res4b.f3 ∧
     (_Bottleneck.callShape ResNet50.res4b ⟨2, 14, 14, 1024⟩ false).h =
       (if ResNet50.res4b.downsampling then cdiv 14 ResNet50.res4b.stride else 14) ∧
     (_Bottleneck.callShape ResNet50.res4b ⟨2, 14, 14, 1024⟩ false).w =
       (if ResNet50.res4b.downsampling then cdiv 14 ResNet50.res4b.stride else 14)) :=
  ⟨by decide, by decide,
   bottleneck_output_shape ResNet50.res4b ⟨2, 14, 14, 1024⟩ false
     (by decide) (by decide) (by decide) (by decide)⟩

/-- C7: in a bottleneck unit with a projection shortcut and stride greater
than one, the main path and the shortcut path divide the spatial dimensions
by the stride identically (rounding up), so the two tensors added before the
final activation have equal shapes for every input. -/
theorem bottleneck_downsampling_paths (cfg : BottleneckCfg) (s : Shape)
    (hd : cfg.downsampling = true) (hst : 1 < cfg.stride)
    (hh : 0 < s.h) (hw : 0 < s.w) :
    (_Bottleneck.mainPathShape cfg s).h = cdiv s.h cfg.stride ∧
    (_Bottleneck.mainPathShape cfg s).w = cdiv s.w cfg.stride ∧
    (_Bottleneck.shortcutShape cfg s).h = cdiv s.h cfg.stride ∧
    (_Bottleneck.shortcutShape cfg s).w = cdiv s.w cfg.stride ∧
    _Bottleneck.mainPathShape cfg s = _Bottleneck.shortcutShape cfg s := by
  have hm := _Bottleneck.mainPathShape_eq cfg s
  have h1 : convValidDim 1 cfg.stride s.h = cdiv s.h cfg.stride :=
    convValidDim_eq_cdiv s.h cfg.stride hh (by omega)
  have h2 : convValidDim 1 cfg.stride s.w = cdiv s.w cfg.stride :=
    convValidDim_eq_cdiv s.w cfg.stride hw (by omega)
  refine ⟨?_, ?_, ?_, ?_, ?_⟩
  · rw [hm]; exact h1
  · rw [hm]; exact h2
  · unfold _Bottleneck.shortcutShape; rw [hd]; simpa using h1
  · unfold _Bottleneck.shortcutShape; rw [hd]; simpa using h2
  · rw [hm]; unfold _Bottleneck.shortcutShape; rw [hd]; simp

/-- C7 witness at the unit res3a (projection, stride 2) and the input shape
(1,10,11,256). -/
theorem bottleneck_downsampling_paths_witness :
    ResNet50.res3a.downsampling = true ∧ 1 < ResNet50.res3a.stride ∧
    ((_Bottleneck.mainPathShape ResNet50.res3a ⟨1, 10, 11, 256⟩).h =
       cdiv 10 ResNet50.res3a.stride ∧
     (_Bottleneck.mainPathShape ResNet50.res3a ⟨1, 10, 11, 256⟩).w =
       cdiv 11 ResNet50.res3a.stride ∧
     (_Bottleneck.shortcutShape ResNet50.res3a ⟨1, 10, 11, 256⟩).h =
       cdiv 10 ResNet50.res3a.stride ∧
     (_Bottleneck.shortcutShape ResNet50.res3a ⟨1, 10, 11, 256⟩).w =
       cdiv 11 ResNet50.res3a.stride ∧
     _Bottleneck.mainPathShape ResNet50.res3a ⟨1, 10, 11, 256⟩ =
       _Bottleneck.shortcutShape ResNet50.res3a ⟨1, 10, 11, 256⟩) :=
  ⟨by decide, by decide,
   bottleneck_downsampling_paths ResNet50.res3a ⟨1, 10, 11, 256⟩
     (by decide) (by decide) (by decide) (by decide)⟩

/-- C5: for every unit and input, the forward result of
_Bottleneck.__call__ equals the rectified sum of the spec's main path
(three convolution-normalization stages with activations after the first
two) and the spec's shortcut path (projection pair when configured, else
the input unchanged). -/
theorem bottleneck_call_decomposition {T S : Type} (relu : T → T)
    (add : T → T → T) (p : BottleneckLayers T S) (st : BottleneckStats S)
    (x : T) (training : Bool) :
    (_Bottleneck.callS relu add p st x training).2 =
      relu (add (_Bottleneck.mainPathSpec relu p st x training)
                (_Bottleneck.shortcutPathSpec p st x training)) := by
  obtain ⟨c2a, b2a, c2b, b2b, c2c, b2c, csh, bsh, dwn⟩ := p
  cases dwn <;> rfl

/-- C6: a bottleneck unit configured without a projection shortcut returns
exactly relu of the main-path result plus the unmodified input. -/
theorem bottleneck_identity_shortcut {T S : Type} (relu : T → T)
    (add : T → T → T) (p : BottleneckLayers T S) (st : BottleneckStats S)
    (x : T) (training : Bool) (hd : p.downsampling = false) :
    (_Bottleneck.callS relu add p st x training).2 =
      relu (add (_Bottleneck.mainPathSpec relu p st x training) x) := by
  obtain ⟨c2a, b2a, c2b, b2b, c2c, b2c, csh, bsh, dwn⟩ := p
  cases dwn
  · rfl
  · simp at hd

/-- C6 witness at a concrete unit over natural-number tensors. -/
theorem bottleneck_identity_shortcut_witness :
    (_Bottleneck.callS (fun v => v + 1) Nat.add natUnit ⟨0, 0, 0, 0⟩ 5 false).2 =
      (fun v => v + 1)
        (Nat.add (_Bottleneck.mainPathSpec (fun v => v + 1) natUnit ⟨0, 0, 0, 0⟩ 5 false) 5) :=
  bottleneck_identity_shortcut (fun v => v + 1) Nat.add natUnit ⟨0, 0, 0, 0⟩ 5 false rfl

/-- C8: the sub-module names follow the stage and unit identifier scheme
bit-exactly: conv1 and bn_conv1 for the stem, and for each block identifier
the three main-path pairs with suffixes 2a, 2b, 2c plus, for the first unit
of each stage, the projection pair with suffix 1. -/
theorem resnet_layer_names :
    ResNet50.layerNames =
      ["conv1", "bn_conv1",
       "res2a_branch2a", "bn2a_branch2a", "res2a_branch2b", "bn2a_branch2b",
       "res2a_branch2c", "bn2a_branch2c", "res2a_branch1", "bn2a_branch1",
       "res2b_branch2a", "bn2b_branch2a", "res2b_branch2b", "bn2b_branch2b",
       "res2b_branch2c", "bn2b_branch2c",
       "res2c_branch2a", "bn2c_branch2a", "res2c_branch2b", "bn2c_branch2b",
       "res2c_branch2c", "bn2c_branch2c",
       "res3a_branch2a", "bn3a_branch2a", "res3a_branch2b", "bn3a_branch2b",
       "res3a_branch2c", "bn3a_branch2c", "res3a_branch1", "bn3a_branch1",
       "res3b_branch2a", "bn3b_branch2a", "res3b_branch2b", "bn3b_branch2b",
       "res3b_branch2c", "bn3b_branch2c",
       "res3c_branch2a", "bn3c_branch2a", "res3c_branch2b", "bn3c_branch2b",
       "res3c_branch2c", "bn3c_branch2c",
       "res3d_branch2a", "bn3d_branch2a", "res3d_branch2b", "bn3d_branch2b",
       "res3d_branch2c", "bn3d_branch2c",
       "res4a_branch2a", "bn4a_branch2a", "res4a_branch2b", "bn4a_branch2b",
       "res4a_branch2c", "bn4a_branch2c", "res4a_branch1", "bn4a_branch1",
       "res4b_branch2a", "bn4b_branch2a", "res4b_branch2b", "bn4b_branch2b",
       "res4b_branch2c", "bn4b_branch2c",
       "res4c_branch2a", "bn4c_branch2a", "res4c_branch2b", "bn4c_branch2b",
       "res4c_branch2c", "bn4c_branch2c",
       "res4d_branch2a", "bn4d_branch2a", "res4d_branch2b", "bn4d_branch2b",
       "res4d_branch2c", "bn4d_branch2c",
       "res4e_branch2a", "bn4e_branch2a", "res4e_branch2b", "bn4e_branch2b",
       "res4e_branch2c", "bn4e_branch2c",
       "res4f_branch2a", "bn4f_branch2a", "res4f_branch2b", "bn4f_branch2b",
       "res4f_branch2c", "bn4f_branch2c",
       "res5a_branch2a", "bn5a_branch2a", "res5a_branch2b", "bn5a_branch2b",
       "res5a_branch2c", "bn5a_branch2c", "res5a_branch1", "bn5a_branch1",
       "res5b_branch2a", "bn5b_branch2a", "res5b_branch2b", "bn5b_branch2b",
       "res5b_branch2c", "bn5b_branch2c",
       "res5c_branch2a", "bn5c_branch2a", "res5c_branch2b", "bn5c_branch2b",
       "res5c_branch2c", "bn5c_branch2c"] := by
  rfl

/-- C9: when the caller omits the mode flag, ResNet50.__call__ defaults to
training mode while _Bottleneck.__call__ defaults to inference mode; the two
public call interfaces have opposite defaults. -/
theorem call_training_defaults :
    ResNet50.trainingDefault = true ∧
    _Bottleneck.trainingDefault = false ∧
    ResNet50.trainingDefault ≠ _Bottleneck.trainingDefault ∧
    (∀ (T S : Type) (relu : T → T) (add : T → T → T) (P : ResNetLayers T S)
        (st : ResNetStats S) (x : T),
        ResNet50.callSDefault relu add P st x = ResNet50.callS relu add P st x true) ∧
    (∀ (T S : Type) (relu : T → T) (add : T → T → T) (p : BottleneckLayers T S)
        (st : BottleneckStats S) (x : T),
        _Bottleneck.callSDefault relu add p st x = _Bottleneck.callS relu add p st x false) :=
  ⟨rfl, rfl, by decide, fun _ _ _ _ _ _ _ => rfl, fun _ _ _ _ _ _ _ => rfl⟩

theorem bottleneck_stats_inference {T S : Type} (relu : T → T)
    (add : T → T → T) (p : BottleneckLayers T S) (st : BottleneckStats S)
    (x : T) : (_Bottleneck.callS relu add p st x false).1 = st := by
  obtain ⟨c2a, b2a, c2b, b2b, c2c, b2c, csh, bsh, dwn⟩ := p
  obtain ⟨s1, s2, s3, s4⟩ := st
  cases dwn <;> rfl

theorem bottleneck_stats_training {T S : Type} (relu : T → T)
    (add : T → T → T) (p : BottleneckLayers T S) (st : BottleneckStats S)
    (x : T) : trainUpdated p st ((_Bottleneck.callS relu add p st x true).1) := by
  obtain ⟨c2a, b2a, c2b, b2b, c2c, b2c, csh, bsh, dwn⟩ := p
  cases dwn
  · exact ⟨⟨_, rfl⟩, ⟨_, rfl⟩, ⟨_, rfl⟩, rfl⟩
  · exact ⟨⟨_, rfl⟩, ⟨_, rfl⟩, ⟨_, rfl⟩, ⟨_, rfl⟩⟩

/-- C2 amended: an inference-mode run leaves the running statistics of every
normalization layer unchanged; a training-mode run applies the update of
every normalization layer owned by the sixteen bottleneck units, but leaves
the stem's bn_conv1 statistics unchanged, because ResNet50.__call__ invokes
bn_conv1 without forwarding the training flag. -/
theorem resnet_bn_statistics {T S : Type} (relu : T → T) (add : T → T → T)
    (P : ResNetLayers T S) (st : ResNetStats S) (x : T) :
    (ResNet50.callS relu add P st x false).1 = st ∧
    ((ResNet50.callS relu add P st x true).1).bn_conv1 = st.bn_conv1 ∧
    trainUpdated P.res2a st.res2a ((ResNet50.callS relu add P st x true).1).res2a ∧
    trainUpdated P.res2b st.res2b ((ResNet50.callS relu add P st x true).1).res2b ∧
    trainUpdated P.res2c st.res2c ((ResNet50.callS relu add P st x true).1).res2c ∧
    trainUpdated P.res3a st.res3a ((ResNet50.callS relu add P st x true).1).res3a ∧
    trainUpdated P.res3b st.res3b ((ResNet50.callS relu add P st x true).1).res3b ∧
    trainUpdated P.res3c st.res3c ((ResNet50.callS relu add P st x true).1).res3c ∧
    trainUpdated P.res3d st.res3d ((ResNet50.callS relu add P st x true).1).res3d ∧
    trainUpdated P.res4a st.res4a ((ResNet50.callS relu add P st x true).1).res4a ∧
    trainUpdated P.res4b st.res4b ((ResNet50.callS relu add P st x true).1).res4b ∧
    trainUpdated P.res4c st.res4c ((ResNet50.callS relu add P st x true).1).res4c ∧
    trainUpdated P.res4d st.res4d ((ResNet50.callS relu add P st x true).1).res4d ∧
    trainUpdated P.res4e st.res4e ((ResNet50.callS relu add P st x true).1).res4e ∧
    trainUpdated P.res4f st.res4f ((ResNet50.callS relu add P st x true).1).res4f ∧
    trainUpdated P.res5a st.res5a ((ResNet50.callS relu add P st x true).1).res5a ∧
    trainUpdated P.res5b st.res5b ((ResNet50.callS relu add P st x true).1).res5b ∧
    trainUpdated P.res5c st.res5c ((ResNet50.callS relu add P st x true).1).res5c := by
  refine ⟨?_, rfl,
    bottleneck_stats_training relu add P.res2a st.res2a _,
    bottleneck_stats_training relu add P.res2b st.res2b _,
    bottleneck_stats_training relu add P.res2c st.res2c _,
    bottleneck_stats_training relu add P.res3a st.res3a _,
    bottleneck_stats_training relu add P.res3b st.res3b _,
    bottleneck_stats_training relu add P.res3c st.res3c _,
    bottleneck_stats_training relu add P.res3d st.res3d _,
    bottleneck_stats_training relu add P.res4a st.res4a _,
    bottleneck_stats_training relu add P.res4b st.res4b _,
    bottleneck_stats_training relu add P.res4c st.res4c _,
    bottleneck_stats_training relu add P.res4d st.res4d _,
    bottleneck_stats_training relu add P.res4e st.res4e _,
    bottleneck_stats_training relu add P.res4f st.res4f _,
    bottleneck_stats_training relu add P.res5a st.res5a _,
    bottleneck_stats_training relu add P.res5b st.res5b _,
    bottleneck_stats_training relu add P.res5c st.res5c _⟩
  simp [ResNet50.callS, bnApply, kerasDefaultTraining, bottleneck_stats_inference]

/-- C2 counterexample: with counting statistics (every update strictly
increments), a training-mode run of the backbone leaves the stem's bn_conv1
statistics at their initial value even though applying its update would have
changed them, while a bottleneck layer's statistics do change; so not every
normalization layer is updated in training mode. -/
theorem resnet_bn_stem_counterexample :
    ((ResNet50.callS (fun u => u) (fun u _ => u) countingNet countingStats () true).1).bn_conv1
      = countingStats.bn_conv1 ∧
    countingBN.upd countingStats.bn_conv1 () ≠ countingStats.bn_conv1 ∧
    ((ResNet50.callS (fun u => u) (fun u _ => u) countingNet countingStats () true).1).res2a.bn2a
      ≠ countingStats.res2a.bn2a :=
  ⟨rfl, by decide, by decide⟩
